import Mathlib

/-!
Verification of the ezSync parallel refurbishment orchestration core
(`src/ezSync/operations.py`, `src/ezSync/parallel_worker.py`,
`src/ezSync/main.py`, `src/ezSync/utils.py`) against its specification.

Shallow embedding notes:
* Python dicts with string keys/values are modelled as association lists
  (`List (String × String)`) with Python assignment semantics
  (`dictInsert` overwrites in place, appends fresh keys at the end).
* `get_radio_info` / API calls are oracles: each call site reads the next
  answer from an environment record, so one Lean evaluation corresponds to
  one concrete execution of the Python code.
* Numeric speed-test figures (`downlinkThroughput`, ...) are modelled as
  rationals (Python divides kbps integers by 1000 producing floats; all
  figures in play are exact decimals, so ℚ is faithful).
* `time.sleep` calls are irrelevant to the values computed and are dropped.
-/

namespace EzSync

/-- The status words used on the wire and in the status board
(`PENDING`, `IN_PROGRESS`, `WARNING`, `COMPLETED`, `FAILED`). -/
inductive Status where
  | pending
  | inProgress
  | warning
  | completed
  | failed
deriving DecidableEq, Repr

/-- A Python dict with string keys and string values (the `radio_info`
dictionaries), as an association list. -/
abbrev Info := List (String × String)

/-- Python dict assignment `d[k] = v`: overwrite the existing binding in
place, or append a new one. -/
def dictInsert : Info → String → String → Info
  | [], k, v => [(k, v)]
  | (k0, v0) :: rest, k, v =>
      if k0 = k then (k, v) :: rest else (k0, v0) :: dictInsert rest k v

/-- Python `k in d`. -/
def hasKey (d : Info) (k : String) : Bool :=
  (List.lookup k d).isSome

/-- Python `d[k]` with empty-string fallback (keys looked up this way are
always present in the dictionaries the code builds). -/
def dictGet (d : Info) (k : String) : String :=
  (List.lookup k d).getD ""

/-- A progress message as placed on a worker's status queue:
`(status, message, step, radio_info)` (the modern four-tuple format; every
message the current workers emit has this shape). -/
structure Msg where
  status : Status
  message : String
  step : Nat
  radioInfo : Info
deriving DecidableEq, Repr

/-- One entry of the shared `status_board`:
`{"status": ..., "message": ..., "step": ..., "radio_info": ...}`.
The initial `PENDING` entries carry no `radio_info` key; the reconciliation
code reads it back with `status.get("radio_info", {})`, so an absent dict
and an empty dict are indistinguishable and we model both as `[]`. -/
structure BoardEntry where
  status : Status
  message : String
  step : Nat
  radioInfo : Info
deriving DecidableEq, Repr

/-- The shared status board, keyed by radio serial number. -/
abbrev Board := List (String × BoardEntry)

/-- `status_board[radio] = {...}` (Manager dict assignment). -/
def boardSet : Board → String → BoardEntry → Board
  | [], r, e => [(r, e)]
  | (r0, e0) :: rest, r, e =>
      if r0 = r then (r, e) :: rest else (r0, e0) :: boardSet rest r e

/-- `operations.refurbish_radios_parallel`, board initialisation:
`status_board[radio] = {"status": "PENDING", "message": "", "step": 0}`. -/
def initBoard (serials : List String) : Board :=
  serials.map (fun s => (s, ⟨Status.pending, "", 0, []⟩))

/-- The monitor loop's handling of one drained four-tuple message
(`operations.monitor_status`): the board entry is REPLACED wholesale by the
message's fields — the `radio_info` delta is not merged into the previous
snapshot. -/
def applyMessageData (board : Board) (radio : String) (m : Msg) : Board :=
  boardSet board radio ⟨m.status, m.message, m.step, m.radioInfo⟩

/-- The monitor loop drains one radio's queue in emission order.  Once a
`COMPLETED`/`FAILED` message is processed the radio joins `finished_radios`
and all later messages for it are skipped. (The ten-message batch limit per
polling tick only staggers processing across ticks; it does not change the
final board, so it is not modelled.) -/
def drainMsgs (board : Board) (radio : String) : List Msg → Board
  | [] => board
  | m :: rest =>
      let b2 := applyMessageData board radio m
      if m.status = Status.completed ∨ m.status = Status.failed then b2
      else drainMsgs b2 radio rest

/-- The spec-side merge rule (§3 of the spec, used by claim C5 only):
merge a snapshot delta into an accumulated snapshot — new fields overwrite,
unspecified fields persist. -/
def specMergeDelta (acc delta : Info) : Info :=
  delta.foldl (fun a kv => dictInsert a kv.1 kv.2) acc

/-- Spec-side: fold a sequence of deltas into the union snapshot. -/
def specMergeDeltas (deltas : List Info) : Info :=
  deltas.foldl specMergeDelta []

/-- `operations.verify_process_completion`, body of the per-radio loop:
radios already `COMPLETED`/`FAILED` are skipped; a `PENDING`/`IN_PROGRESS`
radio whose step is at least 4, whose snapshot has a `speed_test` key and
whose step is at least 5 is optimistically marked `COMPLETED` (step 6);
any other `PENDING`/`IN_PROGRESS` radio is marked
`FAILED` / "Process did not complete". -/
def verifyEntry (e : BoardEntry) : BoardEntry :=
  if e.status = Status.completed ∨ e.status = Status.failed then e
  else if (e.status = Status.inProgress ∨ e.status = Status.pending)
      ∧ 4 ≤ e.step ∧ hasKey e.radioInfo "speed_test" ∧ 5 ≤ e.step then
    ⟨Status.completed, "Refurbishment completed successfully", 6, e.radioInfo⟩
  else if e.status = Status.inProgress ∨ e.status = Status.pending then
    ⟨Status.failed, "Process did not complete", e.step, e.radioInfo⟩
  else e

/-- `operations.verify_process_completion` over the whole board (the loop
runs over `radio_serial_numbers`, which are exactly the board's keys). -/
def verify_process_completion (board : Board) : Board :=
  board.map (fun p => (p.1, verifyEntry p.2))

/-- `operations.refurbish_radios_parallel`, `KeyboardInterrupt` handler,
per-entry: `PENDING`/`IN_PROGRESS` entries become
`FAILED` / "Operation interrupted by user" (keeping step and snapshot);
all other entries are left untouched. -/
def interruptEntry (e : BoardEntry) : BoardEntry :=
  if e.status = Status.pending ∨ e.status = Status.inProgress then
    ⟨Status.failed, "Operation interrupted by user", e.step, e.radioInfo⟩
  else e

/-- The `KeyboardInterrupt` handler over the whole board. -/
def interruptBoard (board : Board) : Board :=
  board.map (fun p => (p.1, interruptEntry p.2))

/-- `operations.refurbish_radios_parallel`, final failure count:
`sum(1 for status in status_board.values() if status["status"] == "FAILED")`. -/
def countFailed (board : Board) : Nat :=
  (board.filter (fun p => p.2.status = Status.failed)).length

/-! ### Device data returned by `get_radio_info` -/

/-- The fields of a `get_radio_info` payload that the workflow reads.
`connectedBn = none` models both an absent key and an empty (falsy) value —
the code only ever tests truthiness or applies a `.get` default.
The `carriers` sub-dict is only ever rendered into the `frequencies`
display string, so we carry the rendered string (present exactly when keys
`'0'` and `'1'` are both present). -/
structure RadioData where
  connected : Bool
  connectedBn : Option String
  softwareVersion : Option String
  partNumber : Option String
  multiCarrierModeRn : Option String
  hostName : Option String
  frequencies : Option String
deriving DecidableEq, Repr

/-- `parallel_worker.worker_refurbish_radio` lines 260-276 (and the copy in
`run_speed_tests_with_results` lines 412-428): rebuild `radio_info` from a
fresh `get_radio_info` payload, adding `frequencies` only when both
carriers are present. -/
def buildRadioInfo (d : RadioData) : Info :=
  let base : Info :=
    [("firmware", d.softwareVersion.getD "Unknown"),
     ("connected_bn", d.connectedBn.getD "None"),
     ("hardware", d.partNumber.getD "Unknown"),
     ("carrier_mode", d.multiCarrierModeRn.getD "Unknown")]
  match d.frequencies with
  | some f => base ++ [("frequencies", f)]
  | none => base

/-- `api.upgrade_radio_firmware` result object: truthiness is `success`,
and `skipped` records that the device already ran the target firmware. -/
structure UpgradeResult where
  success : Bool
  skipped : Bool
deriving DecidableEq, Repr

/-! ### Speed tests -/

/-- The fields of a speed-test result dict that the code reads.  Numeric
figures are rationals (the API reports kbps integers; the code divides by
1000 for display). -/
structure TestResult where
  status : Option String
  downlinkThroughput : Option ℚ
  uplinkThroughput : Option ℚ
  latencyMillis : Option ℚ
  downlinkSnr : Option ℚ
  uplinkSnr : Option ℚ
  pathloss : Option ℚ
  rfLinkDistance : Option ℚ
  failureReason : Option String
deriving DecidableEq, Repr

/-- Outcome of one speed-test attempt, as seen by the loop:
`initiate_speed_test` may fail (falsy operation id), `poll_speed_test_results`
may fail (falsy result), or a result dict comes back. -/
inductive SpeedAttempt where
  | initFail
  | pollFail
  | ok (r : TestResult)
deriving DecidableEq, Repr

/-- The criterion under which one round counts toward the required number
of successes: its status is `"COMPLETED"` and `downlinkThroughput` is
present (`parallel_worker.run_speed_tests_with_results` lines 472-481,
`operations.run_speed_tests` lines 509-514). -/
def countsAsSuccess : SpeedAttempt → Bool
  | SpeedAttempt.ok r =>
      decide (r.status = some "COMPLETED") && r.downlinkThroughput.isSome
  | _ => false

/-- Payload of a counting attempt. -/
def successPayload : SpeedAttempt → Option TestResult
  | SpeedAttempt.ok r =>
      if r.status = some "COMPLETED" ∧ r.downlinkThroughput.isSome then some r
      else none
  | _ => none

/-- `f"{dl:.1f}/{ul:.1f} Mbps"` built from a result dict:
`dl = r.get('downlinkThroughput', 0)/1000`,
`ul = r.get('uplinkThroughput', 0)/1000 if present else 0`.
Python renders the floats with one decimal place; we render the exact
rational, which is faithful for every figure the claims compare. -/
def fmtPair (r : TestResult) : String :=
  let dl : ℚ := (r.downlinkThroughput.getD 0) / 1000
  let ul : ℚ :=
    match r.uplinkThroughput with
    | some u => u / 1000
    | none => 0
  toString dl ++ "/" ++ toString ul ++ " Mbps"

/-- The success-collecting loop shared by both speed-test variants
(`operations.run_speed_tests` lines 485-532 and the results accumulation of
`parallel_worker.run_speed_tests_with_results` lines 440-511): run attempts
`1..maxA` in order, appending each counting round to the accumulator, and
stop as soon as `numTests` rounds have counted.  The first argument of the
recursion is the number of attempts still allowed; attempt number
`a = maxA - r` when `r + 1` attempts remain. -/
def speedCollect (oracle : Nat → SpeedAttempt) (numTests maxA : Nat) :
    Nat → List TestResult → List TestResult
  | 0, acc => acc
  | r + 1, acc =>
      if acc.length < numTests then
        let a := maxA - r
        let acc2 :=
          match successPayload (oracle a) with
          | some t => acc ++ [t]
          | none => acc
        speedCollect oracle numTests maxA r acc2
      else acc

/-- `utils.calculate_average_speed_test_results`: each numeric field is the
mean of its present values, or (when no result carries it) the value copied
from the last result; non-numeric fields are copied from the last result.
An empty input returns the empty dict. -/
def avgField (vals : List ℚ) (fallback : Option ℚ) : Option ℚ :=
  match vals with
  | [] => fallback
  | _ => some (vals.sum / vals.length)

/-- `utils.calculate_average_speed_test_results` over the result record. -/
def calculate_average_speed_test_results (results : List TestResult) : TestResult :=
  match results.getLast? with
  | none => ⟨none, none, none, none, none, none, none, none, none⟩
  | some last =>
      { status := last.status
        downlinkThroughput :=
          avgField (results.filterMap TestResult.downlinkThroughput) last.downlinkThroughput
        uplinkThroughput :=
          avgField (results.filterMap TestResult.uplinkThroughput) last.uplinkThroughput
        latencyMillis :=
          avgField (results.filterMap TestResult.latencyMillis) last.latencyMillis
        downlinkSnr :=
          avgField (results.filterMap TestResult.downlinkSnr) last.downlinkSnr
        uplinkSnr :=
          avgField (results.filterMap TestResult.uplinkSnr) last.uplinkSnr
        pathloss :=
          avgField (results.filterMap TestResult.pathloss) last.pathloss
        rfLinkDistance :=
          avgField (results.filterMap TestResult.rfLinkDistance) last.rfLinkDistance
        failureReason := last.failureReason }

/-- `operations.run_speed_tests` (the non-parallel variant): collect
counting rounds, return `None` when none counted, otherwise the field-wise
average of ALL collected rounds (also when fewer than `numTests` counted —
the code only prints a warning in that case). -/
def run_speed_tests (oracle : Nat → SpeedAttempt) (numTests maxA : Nat) :
    Option TestResult :=
  let successfulResults := speedCollect oracle numTests maxA maxA []
  if successfulResults = [] then none
  else some (calculate_average_speed_test_results successfulResults)

/-- The message-emitting attempt loop of
`parallel_worker.run_speed_tests_with_results` (lines 440-511), status-queue
path.  State: attempts remaining, successes so far, collected results,
current `radio_info` (mutated in place when a round counts).  Note the
`continue` after a failed `initiate_speed_test` skips the inter-test wait
message. -/
def speedMsgsLoop (oracle : Nat → SpeedAttempt) (numTests maxA intervalS stepN : Nat) :
    Nat → Nat → List TestResult → Info → (List Msg × List TestResult × Info)
  | 0, _, acc, info => ([], acc, info)
  | r + 1, s, acc, info =>
      if s < numTests then
        let a := maxA - r
        let m1 := Msg.mk Status.inProgress
          ("Speed test attempt " ++ toString a ++ "/" ++ toString maxA ++
            " (Completed: " ++ toString s ++ "/" ++ toString numTests ++ ")") stepN info
        let waitMsg (sNow : Nat) (infoNow : Info) : List Msg :=
          if sNow < numTests ∧ a < maxA then
            [Msg.mk Status.inProgress
              ("Waiting " ++ toString intervalS ++ "s before next test") stepN infoNow]
          else []
        match oracle a with
        | SpeedAttempt.initFail =>
            let m2 := Msg.mk Status.inProgress
              ("Failed to initiate test " ++ toString a) stepN info
            let rec0 := speedMsgsLoop oracle numTests maxA intervalS stepN r s acc info
            (m1 :: m2 :: rec0.1, rec0.2.1, rec0.2.2)
        | SpeedAttempt.pollFail =>
            let m2 := Msg.mk Status.inProgress
              ("Waiting for test " ++ toString a ++ " results") stepN info
            let m3 := Msg.mk Status.inProgress
              ("Failed to get results for test " ++ toString a) stepN info
            let rec0 := speedMsgsLoop oracle numTests maxA intervalS stepN r s acc info
            (m1 :: m2 :: m3 :: (waitMsg s info ++ rec0.1), rec0.2.1, rec0.2.2)
        | SpeedAttempt.ok t =>
            let m2 := Msg.mk Status.inProgress
              ("Waiting for test " ++ toString a ++ " results") stepN info
            if t.status = some "COMPLETED" then
              let m3 := Msg.mk Status.inProgress
                ("Test " ++ toString a ++ " completed successfully") stepN info
              if t.downlinkThroughput.isSome then
                let info2 := dictInsert info "speed_test" (fmtPair t)
                let m4 := Msg.mk Status.inProgress
                  ("Test " ++ toString a ++ " success: " ++ fmtPair t ++
                    " (" ++ toString (s + 1) ++ "/" ++ toString numTests ++ ")") stepN info2
                let rec0 :=
                  speedMsgsLoop oracle numTests maxA intervalS stepN r (s + 1) (acc ++ [t]) info2
                (m1 :: m2 :: m3 :: m4 :: (waitMsg (s + 1) info2 ++ rec0.1), rec0.2.1, rec0.2.2)
              else
                let m4 := Msg.mk Status.inProgress
                  "Test completed but no throughput data" stepN info
                let rec0 := speedMsgsLoop oracle numTests maxA intervalS stepN r s acc info
                (m1 :: m2 :: m3 :: m4 :: (waitMsg s info ++ rec0.1), rec0.2.1, rec0.2.2)
            else
              let m3 := Msg.mk Status.inProgress
                ("Test " ++ toString a ++ " failed: " ++ (t.failureReason.getD "Unknown reason"))
                stepN info
              let rec0 := speedMsgsLoop oracle numTests maxA intervalS stepN r s acc info
              (m1 :: m2 :: m3 :: (waitMsg s info ++ rec0.1), rec0.2.1, rec0.2.2)
      else ([], acc, info)

/-- `parallel_worker.run_speed_tests_with_results`: builds its own
`radio_info` from a fresh `get_radio_info`, runs the attempt loop, and —
when at least one round counted — returns `results[0]`, the FIRST counting
round ("Just return the first result for simplicity"); only a fully empty
result list is reported as failure. -/
def run_speed_tests_with_results (oracle : Nat → SpeedAttempt)
    (radioData : Option RadioData) (numTests maxA intervalS stepN : Nat) :
    List Msg × Option TestResult :=
  let info0 : Info :=
    match radioData with
    | some d => buildRadioInfo d
    | none => []
  let mStart := Msg.mk Status.inProgress
    ("Starting speed tests (0/" ++ toString numTests ++ ")") stepN info0
  let rec0 := speedMsgsLoop oracle numTests maxA intervalS stepN maxA 0 [] info0
  match rec0.2.1 with
  | [] =>
      (mStart :: rec0.1 ++ [Msg.mk Status.failed "No successful speed tests" stepN rec0.2.2],
       none)
  | rFirst :: _ =>
      (mStart :: rec0.1 ++
        [Msg.mk Status.inProgress ("Speed tests completed: " ++ fmtPair rFirst) stepN rec0.2.2],
       some rFirst)

/-! ### The per-device worker (`parallel_worker.worker_refurbish_radio`) -/

/-- The blank `radio_info` dict the wait helpers build locally. -/
def blankInfo : Info :=
  [("firmware", ""), ("connected_bn", ""), ("hardware", ""), ("carrier_mode", "")]

/-- The worker's initial `radio_info` (lines 237-243). -/
def workerInfo0 : Info := blankInfo ++ [("frequencies", "")]

/-- Attempt loop of `parallel_worker.wait_for_connection` (status-queue
path; all its messages carry step 1).  `r + 1` attempts remain at attempt
number `a = maxA - r`; running out of attempts emits the terminal
"Connection timed out" failure message. -/
def wfcLoop (oracle : Nat → Option RadioData) (maxA : Nat) : Nat → (List Msg × Bool)
  | 0 =>
      ([Msg.mk Status.failed
          ("Connection timed out after " ++ toString maxA ++ " attempts") 1 blankInfo], false)
  | r + 1 =>
      let a := maxA - r
      let m1 := Msg.mk Status.inProgress
        ("Waiting for radio to connect (" ++ toString a ++ "/" ++ toString maxA ++ ")") 1 blankInfo
      let retry (txt : String) : List Msg × Bool :=
        let ms2 :=
          if a < maxA then
            [Msg.mk Status.inProgress
              ("Waiting for connection (" ++ toString a ++ "/" ++ toString maxA ++ "): " ++ txt)
              1 blankInfo]
          else []
        let rec0 := wfcLoop oracle maxA r
        (m1 :: (ms2 ++ rec0.1), rec0.2)
      match oracle a with
      | some d =>
          if d.connected then
            ([m1, Msg.mk Status.inProgress "Radio successfully connected" 1 blankInfo], true)
          else retry "Device not connected"
      | none => retry "Device not found"

/-- `parallel_worker.wait_for_connection` with a status queue. -/
def wait_for_connection (oracle : Nat → Option RadioData) (maxA : Nat) : List Msg × Bool :=
  let rec0 := wfcLoop oracle maxA maxA
  (Msg.mk Status.inProgress
      ("Waiting for radio to connect (0/" ++ toString maxA ++ ")") 1 blankInfo :: rec0.1,
   rec0.2)

/-- `parallel_worker.wait_for_connection` without a status queue (as called
from the firmware-upgrade coarse checks): only the boolean result. -/
def wfcResult (oracle : Nat → Option RadioData) (maxA : Nat) : Bool :=
  (wfcLoop oracle maxA maxA).2

/-- The outcome of one `wait_for_reconnection` check, covering the three
`get_radio_info(serial)` outcomes and, when connected, the `connectedBn`
truthiness and the `get_radio_info(bn)` outcome. -/
inductive ReconnCheck where
  | noData
  | notConnected
  | connectedNoBn
  | connectedBnFail (bn : String)
  | connectedOk (bn : String) (bnData : RadioData)
deriving DecidableEq, Repr

/-- Attempt loop of `parallel_worker.wait_for_reconnection` (status-queue
path; note every message carries the hard-coded step 1, regardless of the
workflow phase the caller is in).  A connected check with a falsy
`connectedBn`, or a failed BN-info fetch, returns `(False, None)`
immediately — later attempts are never tried. -/
def wfrLoop (oracle : Nat → ReconnCheck) (maxA : Nat) :
    Nat → (List Msg × Bool × Option RadioData)
  | 0 =>
      ([Msg.mk Status.failed
          ("Reconnection timed out after " ++ toString maxA ++ " attempts") 1 blankInfo],
       false, none)
  | r + 1 =>
      let a := maxA - r
      let m1 := Msg.mk Status.inProgress
        ("Reconnection check (" ++ toString a ++ "/" ++ toString maxA ++ ")") 1 blankInfo
      let mConn := Msg.mk Status.inProgress "Radio connected! Getting BN info" 1 blankInfo
      let retry (m2 : Msg) : List Msg × Bool × Option RadioData :=
        let msW :=
          if a < maxA then
            [Msg.mk Status.inProgress
              ("Waiting for next check (" ++ toString a ++ "/" ++ toString maxA ++ ")")
              1 blankInfo]
          else []
        let rec0 := wfrLoop oracle maxA r
        (m1 :: m2 :: (msW ++ rec0.1), rec0.2.1, rec0.2.2)
      match oracle a with
      | ReconnCheck.noData =>
          retry (Msg.mk Status.inProgress
            ("Failed to get radio info (" ++ toString a ++ "/" ++ toString maxA ++ ")") 1 blankInfo)
      | ReconnCheck.notConnected =>
          retry (Msg.mk Status.inProgress
            ("Radio not connected (" ++ toString a ++ "/" ++ toString maxA ++ ")") 1 blankInfo)
      | ReconnCheck.connectedNoBn =>
          ([m1, mConn, Msg.mk Status.failed "No connected BN found" 1 blankInfo], false, none)
      | ReconnCheck.connectedBnFail bn =>
          ([m1, mConn,
            Msg.mk Status.inProgress ("Getting BN info: " ++ bn) 1 blankInfo,
            Msg.mk Status.failed "Failed to get BN info" 1 blankInfo], false, none)
      | ReconnCheck.connectedOk bn bnData =>
          ([m1, mConn,
            Msg.mk Status.inProgress ("Getting BN info: " ++ bn) 1 blankInfo], true, some bnData)

/-- `parallel_worker.wait_for_reconnection` with a status queue. -/
def wait_for_reconnection (oracle : Nat → ReconnCheck) (maxA : Nat) :
    List Msg × Bool × Option RadioData :=
  let pre : List Msg :=
    [Msg.mk Status.inProgress "Waiting for radio to reconnect" 1 blankInfo,
     Msg.mk Status.inProgress "Initial wait period (180s)" 1 blankInfo,
     Msg.mk Status.inProgress
       ("Starting reconnection checks (0/" ++ toString maxA ++ ")") 1 blankInfo]
  let rec0 := wfrLoop oracle maxA maxA
  (pre ++ rec0.1, rec0.2.1, rec0.2.2)

/-- The environment (API oracle) for one execution of
`worker_refurbish_radio`: the answer of every external call the worker can
make, in program order.  `upgradeReconnect i` abstracts the silent
`wait_for_connection(check_interval=5, max_attempts=2)` of coarse check
`i` to its boolean result. -/
structure WorkerEnv where
  connectOracle : Nat → Option RadioData
  radioDataAfterConnect : Option RadioData
  applyConfigOk : Bool
  upgradeResult : UpgradeResult
  upgradeReconnect : Nat → Bool
  radioDataAfterUpgrade : Option RadioData
  rebootOk : Bool
  reconnOracle : Nat → ReconnCheck
  speedOracle : Nat → SpeedAttempt
  radioDataAtSpeed : Option RadioData
  finalConfigOk : Bool
  radioDataAfterFinal : Option RadioData

/-- The `for i in range(10)` coarse reconnection checks after an actual
firmware upgrade (lines 309-322): break on the first check whose silent
`wait_for_connection` succeeds, refreshing the firmware field from a fresh
`get_radio_info`; checks after the first success never run.  Returns the
emitted messages, the updated `radio_info` and the `reconnected` flag. -/
def upgradeLoop (env : WorkerEnv) (info : Info) : Nat → (List Msg × Info × Bool)
  | 0 => ([], info, false)
  | r + 1 =>
      let i := 10 - (r + 1)
      if env.upgradeReconnect i then
        let m1 := Msg.mk Status.inProgress "[3/5] Radio reconnected after upgrade" 3 info
        match env.radioDataAfterUpgrade with
        | some d =>
            let fw := d.softwareVersion.getD (dictGet info "firmware")
            let info2 := dictInsert info "firmware" fw
            ([m1, Msg.mk Status.inProgress ("[3/5] Updated firmware: " ++ fw) 3 info2],
             info2, true)
        | none => ([m1], info, true)
      else upgradeLoop env info r

/-- Step 5 of the worker (lines 362-390): apply the final configuration
("REFURBISHED" hostname), refresh the hostname into the snapshot, and emit
the terminal `COMPLETED` message — which the `finally` block re-emits once
more as insurance against a lost terminal message. -/
def finalizeTrace (env : WorkerEnv) (info : Info) : List Msg :=
  let m := Msg.mk Status.inProgress "[5/5] Applying final configuration" 5 info
  if env.finalConfigOk then
    let info2 :=
      match env.radioDataAfterFinal with
      | some d => dictInsert info "hostname" (d.hostName.getD "REFURBISHED")
      | none => info
    [m, Msg.mk Status.completed "Refurbishment completed successfully" 5 info2,
     Msg.mk Status.completed "Refurbishment completed successfully" 5 info2]
  else
    [m, Msg.mk Status.failed "Failed to apply final configuration" 5 info]

/-- Step 4 of the worker (lines 341-360): speed tests (unless skipped),
then on success record `results[0]`'s figures in the snapshot and continue
to finalization. -/
def speedTrace (env : WorkerEnv) (skipSpeed : Bool) (info : Info) : List Msg :=
  if skipSpeed then
    Msg.mk Status.inProgress "[4/5] Speed tests skipped" 4 info :: finalizeTrace env info
  else
    let m1 := Msg.mk Status.inProgress "[4/5] Preparing for speed tests" 4 info
    let m2 := Msg.mk Status.inProgress "[4/5] Running speed tests" 4 info
    let st := run_speed_tests_with_results env.speedOracle env.radioDataAtSpeed 3 10 60 4
    match st.2 with
    | none => m1 :: m2 :: (st.1 ++ [Msg.mk Status.failed "Speed tests failed" 4 info])
    | some t =>
        let info2 := dictInsert info "speed_test" (fmtPair t)
        m1 :: m2 :: (st.1 ++ finalizeTrace env info2)

/-- Step 3 of the worker (lines 287-339): firmware management.  When not
skipped: request the upgrade-or-noop; a falsy result is terminal failure; a
skipped upgrade proceeds directly; an initiated upgrade waits, runs the ten
coarse reconnection checks and — when none succeeds — emits a `WARNING` and
proceeds anyway.  When skipped by configuration: explicit reboot, then
`wait_for_reconnection` (whose messages carry step 1); not reconnecting is
terminal failure. -/
def firmwareTrace (env : WorkerEnv) (skipFw skipSpeed : Bool) (info : Info) : List Msg :=
  let m0 := Msg.mk Status.inProgress "[3/5] Firmware management" 3 info
  if skipFw then
    let m1 := Msg.mk Status.inProgress "[3/5] Firmware upgrade skipped" 3 info
    let m2 := Msg.mk Status.inProgress "[3/5] Rebooting radio" 3 info
    if env.rebootOk then
      let w := wait_for_reconnection env.reconnOracle 30
      if w.2.1 then m0 :: m1 :: m2 :: (w.1 ++ speedTrace env skipSpeed info)
      else m0 :: m1 :: m2 ::
        (w.1 ++ [Msg.mk Status.failed "Radio did not reconnect after reboot" 3 info])
    else [m0, m1, m2, Msg.mk Status.failed "Failed to reboot radio" 3 info]
  else
    let m1 := Msg.mk Status.inProgress "[3/5] Checking firmware and upgrading if needed" 3 info
    if env.upgradeResult.success then
      if env.upgradeResult.skipped then
        m0 :: m1 :: Msg.mk Status.inProgress "[3/5] Firmware already up to date" 3 info ::
          speedTrace env skipSpeed info
      else
        let m2 := Msg.mk Status.inProgress "[3/5] Firmware upgrade in progress" 3 info
        let u := upgradeLoop env info 10
        if u.2.2 then m0 :: m1 :: m2 :: (u.1 ++ speedTrace env skipSpeed u.2.1)
        else m0 :: m1 :: m2 ::
          (u.1 ++ (Msg.mk Status.warning "[3/5] Radio did not reconnect after upgrade" 3 u.2.1 ::
            speedTrace env skipSpeed u.2.1))
    else [m0, m1, Msg.mk Status.failed "Failed to initiate firmware upgrade" 3 info]

/-- `parallel_worker.worker_refurbish_radio`: the full sequence of progress
messages a worker puts on its status queue during one (exception-free)
execution against the environment `env`.  The catch-all `except` handler —
which reports `('FAILED', 'Error: ...', 0, radio_info)` at step 0 — is
outside this model: the oracle answers every call. -/
def worker_refurbish_radio (env : WorkerEnv) (skipSpeed skipFw : Bool) : List Msg :=
  let m0 := Msg.mk Status.inProgress "[1/5] Starting refurbishment" 1 workerInfo0
  let m1 := Msg.mk Status.inProgress "[1/5] Connecting to radio" 1 workerInfo0
  let c := wait_for_connection env.connectOracle 30
  if c.2 then
    let step1Tail :=
      match env.radioDataAfterConnect with
      | some d =>
          (buildRadioInfo d,
           [Msg.mk Status.inProgress "[1/5] Connected to radio" 1 (buildRadioInfo d)])
      | none => (workerInfo0, ([] : List Msg))
    let info1 := step1Tail.1
    let mc := Msg.mk Status.inProgress "[2/5] Applying default configuration" 2 info1
    if env.applyConfigOk then
      m0 :: m1 :: (c.1 ++ step1Tail.2 ++ (mc :: firmwareTrace env skipFw skipSpeed info1))
    else
      m0 :: m1 :: (c.1 ++ step1Tail.2 ++
        [mc, Msg.mk Status.failed "Failed to apply default configuration" 2 info1])
  else
    m0 :: m1 :: (c.1 ++ [Msg.mk Status.failed "Failed to connect to radio" 1 workerInfo0])

/-! ### The CLI parallel refurbish path (`main.py`, `--refurb --parallel`) -/

/-- The parameters of `operations.refurbish_radios_parallel` (line 756). -/
def refurbishRadiosParallelParams : List String :=
  ["radio_serial_numbers", "skip_speedtest", "skip_firmware", "verbose"]

/-- The keyword arguments `main.py` line 78 passes:
`refurbish_radios_parallel(args.serial_numbers, max_workers=args.max_workers)`. -/
def mainParallelCallKwargs : List String := ["max_workers"]

/-- Python call semantics: a keyword argument that is not a parameter of the
callee raises `TypeError`; otherwise `refurbish_radios_parallel` returns the
count of `FAILED` entries of its final status board. -/
def callRefurbishRadiosParallel (kwargs : List String) (finalBoard : Board) :
    Except String Nat :=
  if kwargs.all (fun k => refurbishRadiosParallelParams.contains k) then
    Except.ok (countFailed finalBoard)
  else Except.error "TypeError: refurbish_radios_parallel() got an unexpected keyword argument"

/-- Outcome of one CLI invocation: a normal exit code, or an uncaught
Python exception (itself a nonzero process exit, but not a computed code). -/
inductive CliOutcome where
  | exitCode (n : Nat)
  | uncaught (err : String)
deriving DecidableEq, Repr

/-- `main.py` lines 74-100, `--refurb --parallel` branch: the call result is
bound to `results`, and the branch then falls through to
`if failure_count > 0: sys.exit(1)` — but `failure_count` is only ever
assigned in the sequential branch, so even if the call returned, the branch
would raise `NameError`.  As written, the call itself raises `TypeError`
first (see `callRefurbishRadiosParallel`). -/
def main_refurb_parallel (finalBoard : Board) : CliOutcome :=
  match callRefurbishRadiosParallel mainParallelCallKwargs finalBoard with
  | Except.error e => CliOutcome.uncaught e
  | Except.ok _ => CliOutcome.uncaught "NameError: failure_count is not defined"

/-! ### Concrete instances used by counterexamples and witnesses -/

/-- A healthy, connected radio payload. -/
def radioOnline : RadioData :=
  ⟨true, some "BN1", some "1.0.0", some "HW-1", some "DUAL", some "HOST-X", none⟩

/-- Environment: firmware upgrade initiated but the radio is never observed
to reconnect within the ten coarse checks, so the worker emits the
`WARNING` message; the speed-test polls then all fail. -/
def envWarn : WorkerEnv where
  connectOracle := fun _ => some radioOnline
  radioDataAfterConnect := some radioOnline
  applyConfigOk := true
  upgradeResult := ⟨true, false⟩
  upgradeReconnect := fun _ => false
  radioDataAfterUpgrade := none
  rebootOk := true
  reconnOracle := fun _ => ReconnCheck.notConnected
  speedOracle := fun _ => SpeedAttempt.pollFail
  radioDataAtSpeed := none
  finalConfigOk := true
  radioDataAfterFinal := none

/-- The board of one radio after the monitor drained the first eleven
messages of `envWarn`'s run — i.e. everything up to and including the
firmware `WARNING` — and the worker process then died without emitting
anything further (the crash scenario reconciliation exists for). -/
def warnBoard : Board :=
  drainMsgs (initBoard ["SN1"]) "SN1" ((worker_refurbish_radio envWarn false false).take 11)

/-- A speed-test round that counts: completed with downlink present. -/
def goodResult : TestResult :=
  ⟨some "COMPLETED", some 50000, some 5000, some 20, none, none, none, none, none⟩

/-- A second counting round with different figures. -/
def goodResultB : TestResult :=
  ⟨some "COMPLETED", some 80000, some 8000, some 30, none, none, none, none, none⟩

/-- Environment: firmware reported skipped; exactly one of the ten
speed-test attempts counts, the other nine fail to poll. -/
def envOneSuccess : WorkerEnv where
  connectOracle := fun _ => some radioOnline
  radioDataAfterConnect := some radioOnline
  applyConfigOk := true
  upgradeResult := ⟨true, true⟩
  upgradeReconnect := fun _ => false
  radioDataAfterUpgrade := none
  rebootOk := true
  reconnOracle := fun _ => ReconnCheck.notConnected
  speedOracle := fun a => if a = 1 then SpeedAttempt.ok goodResult else SpeedAttempt.pollFail
  radioDataAtSpeed := some radioOnline
  finalConfigOk := true
  radioDataAfterFinal := some radioOnline

/-- Environment: firmware skipped by configuration (`skip_firmware`), the
radio reconnects on the first check after the reboot — exercising
`wait_for_reconnection`'s hard-coded step-1 messages. -/
def envSkipFw : WorkerEnv where
  connectOracle := fun _ => some radioOnline
  radioDataAfterConnect := some radioOnline
  applyConfigOk := true
  upgradeResult := ⟨true, false⟩
  upgradeReconnect := fun _ => false
  radioDataAfterUpgrade := none
  rebootOk := true
  reconnOracle := fun _ => ReconnCheck.connectedOk "BN1" radioOnline
  speedOracle := fun _ => SpeedAttempt.pollFail
  radioDataAtSpeed := none
  finalConfigOk := true
  radioDataAfterFinal := none

/-- Speed-test oracle with three counting rounds: the first carries
`goodResult`'s figures, the later two `goodResultB`'s. -/
def oracleThreeRounds : Nat → SpeedAttempt :=
  fun a => if a = 1 then SpeedAttempt.ok goodResult else SpeedAttempt.ok goodResultB

/-- Two progress messages carrying disjoint snapshot deltas. -/
def deltaMsgs : List Msg :=
  [⟨Status.inProgress, "step one", 1, [("firmware", "v1")]⟩,
   ⟨Status.inProgress, "step four", 4, [("speed_test", "50/5 Mbps")]⟩]

/-- Spec-side (amended claim C8): the first round that counted, among the
attempts inside the budget — `r + 1` attempts remaining means attempt
number `maxA - r`, exactly as in `speedCollect`. -/
def firstCountingRound (oracle : Nat → SpeedAttempt) (maxA : Nat) : Nat → Option TestResult
  | 0 => none
  | r + 1 =>
      match successPayload (oracle (maxA - r)) with
      | some t => some t
      | none => firstCountingRound oracle maxA r

/-- The board entry `warnBoard` holds for `"SN1"`: the drained `WARNING`
message, verbatim. -/
def warnEntry : BoardEntry :=
  ⟨Status.warning, "[3/5] Radio did not reconnect after upgrade", 3,
   [("firmware", "1.0.0"), ("connected_bn", "BN1"),
    ("hardware", "HW-1"), ("carrier_mode", "DUAL")]⟩

/-- Step comparison between two progress messages. -/
def stepLE (a b : Msg) : Prop := a.step ≤ b.step

instance (a b : Msg) : Decidable (stepLE a b) :=
  inferInstanceAs (Decidable (a.step ≤ b.step))

/-- A reconnection oracle whose every check reports the radio connected
but with a falsy `connectedBn`. -/
def oracleNoBn : Nat → ReconnCheck := fun _ => ReconnCheck.connectedNoBn

/-- `envSkipFw` with the no-BN reconnection oracle. -/
def envC10 : WorkerEnv := { envSkipFw with reconnOracle := oracleNoBn }

/-- A board entry still `IN_PROGRESS` at the finalize step with a recorded
speed-test summary — the reconciliation success shape. -/
def c2Entry : BoardEntry :=
  ⟨Status.inProgress, "[5/5] Applying final configuration", 5,
   [("firmware", "1.0.0"), ("speed_test", "50/5 Mbps")]⟩

theorem successPayload_none_iff (s : SpeedAttempt) :
    successPayload s = none ↔ countsAsSuccess s = false := by
  cases s with
  | initFail => simp [successPayload, countsAsSuccess]
  | pollFail => simp [successPayload, countsAsSuccess]
  | ok r =>
      by_cases h1 : r.status = some "COMPLETED" <;>
        by_cases h2 : r.downlinkThroughput.isSome <;>
          simp [successPayload, countsAsSuccess, h1, h2]

theorem successPayload_some (s : SpeedAttempt) (t : TestResult)
    (h : successPayload s = some t) :
    t.status = some "COMPLETED" ∧ t.downlinkThroughput.isSome = true := by
  cases s with
  | initFail => simp [successPayload] at h
  | pollFail => simp [successPayload] at h
  | ok r =>
      simp only [successPayload] at h
      split_ifs at h with hc
      cases h
      exact ⟨hc.1, hc.2⟩

theorem speedCollect_prefix (oracle : Nat → SpeedAttempt) (n maxA : Nat) :
    ∀ (r : Nat) (acc : List TestResult),
      ∃ ext, speedCollect oracle n maxA r acc = acc ++ ext := by
  intro r
  induction r with
  | zero => intro acc; exact ⟨[], by simp [speedCollect]⟩
  | succ r ih =>
      intro acc
      by_cases hl : acc.length < n
      · cases hp : successPayload (oracle (maxA - r)) with
        | some t =>
            obtain ⟨ext, hext⟩ := ih (acc ++ [t])
            refine ⟨[t] ++ ext, ?_⟩
            simp only [speedCollect, if_pos hl, hp]
            simp [hext]
        | none =>
            obtain ⟨ext, hext⟩ := ih acc
            refine ⟨ext, ?_⟩
            simp only [speedCollect, if_pos hl, hp]
            exact hext
      · exact ⟨[], by simp [speedCollect, hl]⟩

theorem speedCollect_mem (oracle : Nat → SpeedAttempt) (n maxA : Nat) :
    ∀ (r : Nat) (acc : List TestResult) (t : TestResult),
      t ∈ speedCollect oracle n maxA r acc →
      t ∈ acc ∨ (t.status = some "COMPLETED" ∧ t.downlinkThroughput.isSome = true) := by
  intro r
  induction r with
  | zero => intro acc t h; simp [speedCollect] at h; exact Or.inl h
  | succ r ih =>
      intro acc t h
      by_cases hl : acc.length < n
      · cases hp : successPayload (oracle (maxA - r)) with
        | some t0 =>
            simp only [speedCollect, if_pos hl, hp] at h
            rcases ih _ t h with hin | hgood
            · rcases List.mem_append.1 hin with h1 | h2
              · exact Or.inl h1
              · simp only [List.mem_singleton] at h2
                subst h2
                exact Or.inr (successPayload_some _ _ hp)
            · exact Or.inr hgood
        | none =>
            simp only [speedCollect, if_pos hl, hp] at h
            exact ih _ t h
      · simp [speedCollect, hl] at h
        exact Or.inl h

theorem speedCollect_head (oracle : Nat → SpeedAttempt) (n maxA : Nat) (hn : 0 < n) :
    ∀ r : Nat,
      (speedCollect oracle n maxA r []).head? = firstCountingRound oracle maxA r := by
  intro r
  induction r with
  | zero => simp [speedCollect, firstCountingRound]
  | succ r ih =>
      have hl : ([] : List TestResult).length < n := by simpa using hn
      cases hp : successPayload (oracle (maxA - r)) with
      | some t =>
          obtain ⟨ext, hext⟩ := speedCollect_prefix oracle n maxA r [t]
          simp only [speedCollect, if_pos hl, hp, firstCountingRound]
          simp [hext]
      | none =>
          simp only [speedCollect, if_pos hl, hp, firstCountingRound]
          exact ih

theorem firstCountingRound_none_iff (oracle : Nat → SpeedAttempt) (maxA : Nat) :
    ∀ r : Nat, r ≤ maxA →
      (firstCountingRound oracle maxA r = none ↔
        ∀ a, maxA - r < a → a ≤ maxA → countsAsSuccess (oracle a) = false) := by
  intro r
  induction r with
  | zero =>
      intro _
      constructor
      · intro _ a h1 h2; omega
      · intro _; rfl
  | succ r ih =>
      intro hr
      have hr2 : r ≤ maxA := by omega
      cases hp : successPayload (oracle (maxA - r)) with
      | some t =>
          simp only [firstCountingRound, hp]
          constructor
          · intro h; cases h
          · intro h
            have hc : countsAsSuccess (oracle (maxA - r)) = false := by
              apply h (maxA - r) (by omega) (by omega)
            rw [← successPayload_none_iff] at hc
            rw [hp] at hc
            cases hc
      | none =>
          simp only [firstCountingRound, hp]
          rw [ih hr2]
          have hc : countsAsSuccess (oracle (maxA - r)) = false :=
            (successPayload_none_iff _).1 hp
          constructor
          · intro h a h1 h2
            by_cases ha : a = maxA - r
            · subst ha; exact hc
            · exact h a (by omega) h2
          · intro h a h1 h2
            exact h a (by omega) h2

theorem speedMsgsLoop_results (oracle : Nat → SpeedAttempt) (n maxA intervalS stepN : Nat) :
    ∀ (r : Nat) (acc : List TestResult) (info : Info),
      (speedMsgsLoop oracle n maxA intervalS stepN r acc.length acc info).2.1
        = speedCollect oracle n maxA r acc := by
  intro r
  induction r with
  | zero => intro acc info; rfl
  | succ r ih =>
      intro acc info
      by_cases hl : acc.length < n
      · cases ho : oracle (maxA - r) with
        | initFail =>
            simp only [speedMsgsLoop, speedCollect, if_pos hl, ho, successPayload]
            exact ih acc info
        | pollFail =>
            simp only [speedMsgsLoop, speedCollect, if_pos hl, ho, successPayload]
            exact ih acc info
        | ok t =>
            by_cases h1 : t.status = some "COMPLETED"
            · by_cases h2 : t.downlinkThroughput.isSome
              · have hlen : (acc ++ [t]).length = acc.length + 1 := by simp
                simp only [speedMsgsLoop, speedCollect, if_pos hl, ho, successPayload,
                  if_pos h1, if_pos h2, if_pos (And.intro h1 h2)]
                rw [← hlen]
                exact ih (acc ++ [t]) _
              · simp only [speedMsgsLoop, speedCollect, if_pos hl, ho, successPayload,
                  if_pos h1, if_neg h2]
                have : ¬ (t.status = some "COMPLETED" ∧ t.downlinkThroughput.isSome = true) := by
                  intro hc; exact h2 hc.2
                simp only [if_neg this]
                exact ih acc info
            · simp only [speedMsgsLoop, speedCollect, if_pos hl, ho, successPayload, if_neg h1]
              have : ¬ (t.status = some "COMPLETED" ∧ t.downlinkThroughput.isSome = true) := by
                intro hc; exact h1 hc.1
              simp only [if_neg this]
              exact ih acc info
      · simp [speedMsgsLoop, speedCollect, hl]

theorem speedMsgsLoop_results_nil (oracle : Nat → SpeedAttempt)
    (n maxA intervalS stepN : Nat) (info : Info) :
    (speedMsgsLoop oracle n maxA intervalS stepN maxA 0 [] info).2.1
      = speedCollect oracle n maxA maxA [] := by
  simpa using speedMsgsLoop_results oracle n maxA intervalS stepN maxA [] info

theorem run_with_results_snd (oracle : Nat → SpeedAttempt) (radioData : Option RadioData)
    (n maxA intervalS stepN : Nat) :
    (run_speed_tests_with_results oracle radioData n maxA intervalS stepN).2
      = (speedCollect oracle n maxA maxA []).head? := by
  simp only [run_speed_tests_with_results, speedMsgsLoop_results_nil]
  cases h : speedCollect oracle n maxA maxA [] <;> simp [h]

theorem wfcLoop_steps (oracle : Nat → Option RadioData) (maxA : Nat) :
    ∀ r, ∀ m ∈ (wfcLoop oracle maxA r).1, m.step = 1 := by
  intro r
  induction r with
  | zero =>
      intro m hm
      simp only [wfcLoop] at hm
      simp at hm
      subst hm; rfl
  | succ r ih =>
      intro m hm
      simp only [wfcLoop] at hm
      cases ho : oracle (maxA - r) with
      | some d =>
          rw [ho] at hm
          by_cases hc : d.connected
          · simp [hc] at hm
            rcases hm with rfl | rfl <;> rfl
          · simp only [hc, if_neg, Bool.false_eq_true, if_false] at hm
            simp at hm
            rcases hm with rfl | hm
            · rfl
            · rcases hm with ⟨-, rfl⟩ | hm
              · rfl
              · exact ih m hm
      | none =>
          rw [ho] at hm
          simp at hm
          rcases hm with rfl | hm
          · rfl
          · rcases hm with ⟨-, rfl⟩ | hm
            · rfl
            · exact ih m hm

theorem wait_for_connection_steps (oracle : Nat → Option RadioData) (maxA : Nat) :
    ∀ m ∈ (wait_for_connection oracle maxA).1, m.step = 1 := by
  intro m hm
  simp only [wait_for_connection] at hm
  simp at hm
  rcases hm with rfl | hm
  · rfl
  · exact wfcLoop_steps oracle maxA maxA m hm

theorem wfrLoop_steps (oracle : Nat → ReconnCheck) (maxA : Nat) :
    ∀ r, ∀ m ∈ (wfrLoop oracle maxA r).1, m.step = 1 := by
  intro r
  induction r with
  | zero =>
      intro m hm
      simp only [wfrLoop] at hm
      simp at hm
      subst hm; rfl
  | succ r ih =>
      intro m hm
      simp only [wfrLoop] at hm
      cases ho : oracle (maxA - r) with
      | noData =>
          rw [ho] at hm
          simp at hm
          rcases hm with rfl | hm
          · rfl
          · rcases hm with rfl | hm
            · rfl
            · rcases hm with ⟨-, rfl⟩ | hm
              · rfl
              · exact ih m hm
      | notConnected =>
          rw [ho] at hm
          simp at hm
          rcases hm with rfl | hm
          · rfl
          · rcases hm with rfl | hm
            · rfl
            · rcases hm with ⟨-, rfl⟩ | hm
              · rfl
              · exact ih m hm
      | connectedNoBn =>
          rw [ho] at hm
          simp at hm
          rcases hm with rfl | rfl | rfl <;> rfl
      | connectedBnFail bn =>
          rw [ho] at hm
          simp at hm
          rcases hm with rfl | rfl | rfl | rfl <;> rfl
      | connectedOk bn d =>
          rw [ho] at hm
          simp at hm
          rcases hm with rfl | rfl | rfl <;> rfl

theorem wait_for_reconnection_steps (oracle : Nat → ReconnCheck) (maxA : Nat) :
    ∀ m ∈ (wait_for_reconnection oracle maxA).1, m.step = 1 := by
  intro m hm
  simp only [wait_for_reconnection] at hm
  simp at hm
  rcases hm with rfl | rfl | rfl | hm
  · rfl
  · rfl
  · rfl
  · exact wfrLoop_steps oracle maxA maxA m hm

theorem upgradeLoop_steps (env : WorkerEnv) :
    ∀ r info, ∀ m ∈ (upgradeLoop env info r).1, m.step = 3 := by
  intro r
  induction r with
  | zero => intro info m hm; simp [upgradeLoop] at hm
  | succ r ih =>
      intro info m hm
      simp only [upgradeLoop] at hm
      by_cases hrc : env.upgradeReconnect (10 - (r + 1))
      · rw [if_pos hrc] at hm
        cases hd : env.radioDataAfterUpgrade with
        | some d =>
            rw [hd] at hm
            simp at hm
            rcases hm with rfl | rfl <;> rfl
        | none =>
            rw [hd] at hm
            simp at hm
            subst hm; rfl
      · rw [if_neg hrc] at hm
        exact ih info m hm

theorem speedMsgsLoop_steps (oracle : Nat → SpeedAttempt) (n maxA intervalS stepN : Nat) :
    ∀ r s acc info, ∀ m ∈ (speedMsgsLoop oracle n maxA intervalS stepN r s acc info).1,
      m.step = stepN := by
  intro r
  induction r with
  | zero => intro s acc info m hm; simp [speedMsgsLoop] at hm
  | succ r ih =>
      intro s acc info m hm
      by_cases hl : s < n
      case neg => simp [speedMsgsLoop, hl] at hm
      case pos =>
      simp only [speedMsgsLoop, if_pos hl] at hm
      have hwait : ∀ sNow infoNow, ∀ x ∈ (if sNow < n ∧ maxA - r < maxA then
          [Msg.mk Status.inProgress
            ("Waiting " ++ toString intervalS ++ "s before next test") stepN infoNow]
          else ([] : List Msg)), x.step = stepN := by
        intro sNow infoNow x hx
        split_ifs at hx
        · simp at hx; subst hx; rfl
        · simp at hx
      cases ho : oracle (maxA - r) with
      | initFail =>
          rw [ho] at hm
          simp at hm
          rcases hm with rfl | rfl | hm
          · rfl
          · rfl
          · exact ih s acc info m hm
      | pollFail =>
          rw [ho] at hm
          simp at hm
          rcases hm with rfl | rfl | rfl | hm
          · rfl
          · rfl
          · rfl
          · rcases hm with ⟨-, rfl⟩ | hrec
            · rfl
            · exact ih s acc info m hrec
      | ok t =>
          rw [ho] at hm
          by_cases h1 : t.status = some "COMPLETED"
          · by_cases h2 : t.downlinkThroughput.isSome
            · simp only [if_pos h1, if_pos h2] at hm
              simp at hm
              rcases hm with rfl | rfl | rfl | rfl | hm
              · rfl
              · rfl
              · rfl
              · rfl
              · rcases hm with ⟨-, rfl⟩ | hrec
                · rfl
                · exact ih (s+1) (acc ++ [t]) _ m hrec
            · simp only [if_pos h1, if_neg h2] at hm
              simp at hm
              rcases hm with rfl | rfl | rfl | rfl | hm
              · rfl
              · rfl
              · rfl
              · rfl
              · rcases hm with ⟨-, rfl⟩ | hrec
                · rfl
                · exact ih s acc info m hrec
          · simp only [if_neg h1] at hm
            simp at hm
            rcases hm with rfl | rfl | rfl | hm
            · rfl
            · rfl
            · rfl
            · rcases hm with ⟨-, rfl⟩ | hrec
              · rfl
              · exact ih s acc info m hrec

theorem run_with_results_steps (oracle : Nat → SpeedAttempt) (radioData : Option RadioData)
    (n maxA intervalS stepN : Nat) :
    ∀ m ∈ (run_speed_tests_with_results oracle radioData n maxA intervalS stepN).1,
      m.step = stepN := by
  intro m hm
  cases radioData with
  | some d =>
      simp only [run_speed_tests_with_results] at hm
      cases hres :
          (speedMsgsLoop oracle n maxA intervalS stepN maxA 0 [] (buildRadioInfo d)).2.1 with
      | nil =>
          rw [hres] at hm
          simp at hm
          rcases hm with rfl | hm | rfl
          · rfl
          · exact speedMsgsLoop_steps oracle n maxA intervalS stepN maxA 0 [] _ m hm
          · rfl
      | cons rf rest =>
          rw [hres] at hm
          simp at hm
          rcases hm with rfl | hm | rfl
          · rfl
          · exact speedMsgsLoop_steps oracle n maxA intervalS stepN maxA 0 [] _ m hm
          · rfl
  | none =>
      simp only [run_speed_tests_with_results] at hm
      cases hres : (speedMsgsLoop oracle n maxA intervalS stepN maxA 0 [] []).2.1 with
      | nil =>
          rw [hres] at hm
          simp at hm
          rcases hm with rfl | hm | rfl
          · rfl
          · exact speedMsgsLoop_steps oracle n maxA intervalS stepN maxA 0 [] _ m hm
          · rfl
      | cons rf rest =>
          rw [hres] at hm
          simp at hm
          rcases hm with rfl | hm | rfl
          · rfl
          · exact speedMsgsLoop_steps oracle n maxA intervalS stepN maxA 0 [] _ m hm
          · rfl

theorem finalizeTrace_steps (env : WorkerEnv) (info : Info) :
    ∀ m ∈ finalizeTrace env info, m.step = 5 := by
  intro m hm
  simp only [finalizeTrace] at hm
  split_ifs at hm <;> simp at hm <;> rcases hm with rfl | rfl | rfl <;> rfl

theorem pairwise_of_const_step {l : List Msg} {k : Nat} (h : ∀ m ∈ l, m.step = k) :
    List.Pairwise stepLE l := by
  induction l with
  | nil => exact List.Pairwise.nil
  | cons x xs ih =>
      refine List.Pairwise.cons (fun y hy => ?_) (ih (fun m hm => h m (List.mem_cons_of_mem x hm)))
      have hx := h x (List.mem_cons_self x xs)
      have hyy := h y (List.mem_cons_of_mem x hy)
      simp [stepLE, hx, hyy]

theorem pairwise_blocks2 {l1 l2 : List Msg} {k : Nat}
    (h1 : ∀ m ∈ l1, m.step = k) (h2 : List.Pairwise stepLE l2)
    (hge : ∀ m ∈ l2, k ≤ m.step) :
    List.Pairwise stepLE (l1 ++ l2) := by
  refine List.pairwise_append.2 ⟨pairwise_of_const_step h1, h2, fun a ha b hb => ?_⟩
  show a.step ≤ b.step
  rw [h1 a ha]
  exact hge b hb

theorem speedTrace_ge (env : WorkerEnv) (skipSpeed : Bool) (info : Info) :
    ∀ m ∈ speedTrace env skipSpeed info, 4 ≤ m.step := by
  intro m hm
  simp only [speedTrace] at hm
  by_cases hs : skipSpeed
  · rw [if_pos hs] at hm
    rcases List.mem_cons.1 hm with rfl | hm
    · exact le_refl 4
    · rw [finalizeTrace_steps env info m hm]; omega
  · rw [if_neg hs] at hm
    cases hres : (run_speed_tests_with_results env.speedOracle env.radioDataAtSpeed 3 10 60 4).2 with
    | none =>
        rw [hres] at hm
        rcases List.mem_cons.1 hm with rfl | hm
        · exact le_refl 4
        rcases List.mem_cons.1 hm with rfl | hm
        · exact le_refl 4
        rcases List.mem_append.1 hm with hm | hm
        · rw [run_with_results_steps env.speedOracle env.radioDataAtSpeed 3 10 60 4 m hm]
        · simp at hm; subst hm; exact le_refl 4
    | some t =>
        rw [hres] at hm
        rcases List.mem_cons.1 hm with rfl | hm
        · exact le_refl 4
        rcases List.mem_cons.1 hm with rfl | hm
        · exact le_refl 4
        rcases List.mem_append.1 hm with hm | hm
        · rw [run_with_results_steps env.speedOracle env.radioDataAtSpeed 3 10 60 4 m hm]
        · rw [finalizeTrace_steps env _ m hm]; omega

theorem speedTrace_pairwise (env : WorkerEnv) (skipSpeed : Bool) (info : Info) :
    List.Pairwise stepLE (speedTrace env skipSpeed info) := by
  simp only [speedTrace]
  by_cases hs : skipSpeed
  · rw [if_pos hs]
    show List.Pairwise stepLE
      ([Msg.mk Status.inProgress "[4/5] Speed tests skipped" 4 info] ++ finalizeTrace env info)
    refine pairwise_blocks2 (k := 4) ?_ (pairwise_of_const_step (finalizeTrace_steps env info)) ?_
    · intro m hm; simp at hm; subst hm; rfl
    · intro m hm; rw [finalizeTrace_steps env info m hm]; omega
  · rw [if_neg hs]
    cases hres : (run_speed_tests_with_results env.speedOracle env.radioDataAtSpeed 3 10 60 4).2 with
    | none =>
        apply pairwise_of_const_step (k := 4)
        intro m hm
        rcases List.mem_cons.1 hm with rfl | hm
        · rfl
        rcases List.mem_cons.1 hm with rfl | hm
        · rfl
        rcases List.mem_append.1 hm with hm | hm
        · exact run_with_results_steps env.speedOracle env.radioDataAtSpeed 3 10 60 4 m hm
        · simp at hm; subst hm; rfl
    | some t =>
        show List.Pairwise stepLE
          (([Msg.mk Status.inProgress "[4/5] Preparing for speed tests" 4 info,
             Msg.mk Status.inProgress "[4/5] Running speed tests" 4 info] ++
            (run_speed_tests_with_results env.speedOracle env.radioDataAtSpeed 3 10 60 4).1) ++
            finalizeTrace env (dictInsert info "speed_test" (fmtPair t)))
        refine pairwise_blocks2 (k := 4) ?_
          (pairwise_of_const_step (finalizeTrace_steps env _)) ?_
        · intro m hm
          rcases List.mem_append.1 hm with hm | hm
          · simp at hm; rcases hm with rfl | rfl <;> rfl
          · exact run_with_results_steps env.speedOracle env.radioDataAtSpeed 3 10 60 4 m hm
        · intro m hm; rw [finalizeTrace_steps env _ m hm]; omega

theorem firmwareTrace_noskip_ge (env : WorkerEnv) (skipSpeed : Bool) (info : Info) :
    ∀ m ∈ firmwareTrace env false skipSpeed info, 3 ≤ m.step := by
  intro m hm
  simp only [firmwareTrace, Bool.false_eq_true, if_false] at hm
  by_cases hsucc : env.upgradeResult.success
  · rw [if_pos hsucc] at hm
    by_cases hskip : env.upgradeResult.skipped
    · rw [if_pos hskip] at hm
      rcases List.mem_cons.1 hm with rfl | hm
      · exact le_rfl
      rcases List.mem_cons.1 hm with rfl | hm
      · exact le_rfl
      rcases List.mem_cons.1 hm with rfl | hm
      · exact le_rfl
      have := speedTrace_ge env skipSpeed info m hm
      omega
    · rw [if_neg hskip] at hm
      by_cases hrec : (upgradeLoop env info 10).2.2
      · rw [if_pos hrec] at hm
        rcases List.mem_cons.1 hm with rfl | hm
        · exact le_rfl
        rcases List.mem_cons.1 hm with rfl | hm
        · exact le_rfl
        rcases List.mem_cons.1 hm with rfl | hm
        · exact le_rfl
        rcases List.mem_append.1 hm with hm | hm
        · rw [upgradeLoop_steps env 10 info m hm]
        · have := speedTrace_ge env skipSpeed _ m hm
          omega
      · rw [if_neg hrec] at hm
        rcases List.mem_cons.1 hm with rfl | hm
        · exact le_rfl
        rcases List.mem_cons.1 hm with rfl | hm
        · exact le_rfl
        rcases List.mem_cons.1 hm with rfl | hm
        · exact le_rfl
        rcases List.mem_append.1 hm with hm | hm
        · rw [upgradeLoop_steps env 10 info m hm]
        · rcases List.mem_cons.1 hm with rfl | hm
          · exact le_rfl
          · have := speedTrace_ge env skipSpeed _ m hm
            omega
  · rw [if_neg hsucc] at hm
    simp at hm
    rcases hm with rfl | rfl | rfl <;> exact le_rfl

theorem firmwareTrace_noskip_pairwise (env : WorkerEnv) (skipSpeed : Bool) (info : Info) :
    List.Pairwise stepLE (firmwareTrace env false skipSpeed info) := by
  simp only [firmwareTrace, Bool.false_eq_true, if_false]
  by_cases hsucc : env.upgradeResult.success
  · rw [if_pos hsucc]
    by_cases hskip : env.upgradeResult.skipped
    · rw [if_pos hskip]
      show List.Pairwise stepLE
        ([Msg.mk Status.inProgress "[3/5] Firmware management" 3 info,
          Msg.mk Status.inProgress "[3/5] Checking firmware and upgrading if needed" 3 info,
          Msg.mk Status.inProgress "[3/5] Firmware already up to date" 3 info] ++
          speedTrace env skipSpeed info)
      refine pairwise_blocks2 (k := 3) ?_ (speedTrace_pairwise env skipSpeed info) ?_
      · intro m hm; simp at hm; rcases hm with rfl | rfl | rfl <;> rfl
      · intro m hm; have := speedTrace_ge env skipSpeed info m hm; omega
    · rw [if_neg hskip]
      by_cases hrec : (upgradeLoop env info 10).2.2
      · rw [if_pos hrec]
        show List.Pairwise stepLE
          (([Msg.mk Status.inProgress "[3/5] Firmware management" 3 info,
             Msg.mk Status.inProgress "[3/5] Checking firmware and upgrading if needed" 3 info,
             Msg.mk Status.inProgress "[3/5] Firmware upgrade in progress" 3 info] ++
            (upgradeLoop env info 10).1) ++
            speedTrace env skipSpeed (upgradeLoop env info 10).2.1)
        refine pairwise_blocks2 (k := 3) ?_ (speedTrace_pairwise env skipSpeed _) ?_
        · intro m hm
          rcases List.mem_append.1 hm with hm | hm
          · simp at hm; rcases hm with rfl | rfl | rfl <;> rfl
          · exact upgradeLoop_steps env 10 info m hm
        · intro m hm; have := speedTrace_ge env skipSpeed _ m hm; omega
      · rw [if_neg hrec]
        have H : List.Pairwise stepLE
            (([Msg.mk Status.inProgress "[3/5] Firmware management" 3 info,
               Msg.mk Status.inProgress "[3/5] Checking firmware and upgrading if needed" 3 info,
               Msg.mk Status.inProgress "[3/5] Firmware upgrade in progress" 3 info] ++
              ((upgradeLoop env info 10).1 ++
               [Msg.mk Status.warning "[3/5] Radio did not reconnect after upgrade" 3
                  (upgradeLoop env info 10).2.1])) ++
              speedTrace env skipSpeed (upgradeLoop env info 10).2.1) := by
          refine pairwise_blocks2 (k := 3) ?_ (speedTrace_pairwise env skipSpeed _) ?_
          · intro m hm
            rcases List.mem_append.1 hm with hm | hm
            · simp at hm; rcases hm with rfl | rfl | rfl <;> rfl
            · rcases List.mem_append.1 hm with hm | hm
              · exact upgradeLoop_steps env 10 info m hm
              · simp at hm; subst hm; rfl
          · intro m hm; have := speedTrace_ge env skipSpeed _ m hm; omega
        simpa [List.append_assoc] using H
  · rw [if_neg hsucc]
    apply pairwise_of_const_step (k := 3)
    intro m hm; simp at hm; rcases hm with rfl | rfl | rfl <;> rfl

/-- C4 (amended): in the firmware-not-skipped path (and absent the
catch-all exception handler, which reports step 0) the step values of the
worker's messages are monotonically non-decreasing in emission order, for
every environment.  (The claim as frozen fails in the skip-firmware path,
where `wait_for_reconnection` emits hard-coded step-1 messages after the
step-3 reboot messages; see the counterexample.) -/
theorem C4_steps_monotone_when_firmware_not_skipped (env : WorkerEnv) (skipSpeed : Bool) :
    List.Pairwise stepLE (worker_refurbish_radio env skipSpeed false) := by
  simp only [worker_refurbish_radio]
  by_cases hc : (wait_for_connection env.connectOracle 30).2 = true
  · rw [if_pos hc]
    cases hd : env.radioDataAfterConnect with
    | some d =>
        by_cases hcfg : env.applyConfigOk = true
        · rw [if_pos hcfg]
          have hA : ∀ m ∈ ([Msg.mk Status.inProgress "[1/5] Starting refurbishment" 1 workerInfo0,
                Msg.mk Status.inProgress "[1/5] Connecting to radio" 1 workerInfo0] ++
                ((wait_for_connection env.connectOracle 30).1 ++
                 [Msg.mk Status.inProgress "[1/5] Connected to radio" 1 (buildRadioInfo d)])),
              m.step = 1 := by
            intro m hm
            rcases List.mem_append.1 hm with hm | hm
            · simp at hm; rcases hm with rfl | rfl <;> rfl
            · rcases List.mem_append.1 hm with hm | hm
              · exact wait_for_connection_steps _ 30 m hm
              · simp at hm; subst hm; rfl
          have hB : List.Pairwise stepLE
              ([Msg.mk Status.inProgress "[2/5] Applying default configuration" 2 (buildRadioInfo d)] ++
               firmwareTrace env false skipSpeed (buildRadioInfo d)) := by
            refine pairwise_blocks2 (k := 2) ?_ (firmwareTrace_noskip_pairwise env skipSpeed _) ?_
            · intro m hm; simp at hm; subst hm; rfl
            · intro m hm; have := firmwareTrace_noskip_ge env skipSpeed _ m hm; omega
          have hge : ∀ m ∈ ([Msg.mk Status.inProgress "[2/5] Applying default configuration" 2
                (buildRadioInfo d)] ++ firmwareTrace env false skipSpeed (buildRadioInfo d)),
              1 ≤ m.step := by
            intro m hm
            rcases List.mem_append.1 hm with hm | hm
            · simp at hm; subst hm; exact one_le_two
            · have := firmwareTrace_noskip_ge env skipSpeed _ m hm; omega
          have H := pairwise_blocks2 (k := 1) hA hB hge
          simpa [List.append_assoc] using H
        · rw [if_neg hcfg]
          have hA : ∀ m ∈ ([Msg.mk Status.inProgress "[1/5] Starting refurbishment" 1 workerInfo0,
                Msg.mk Status.inProgress "[1/5] Connecting to radio" 1 workerInfo0] ++
                ((wait_for_connection env.connectOracle 30).1 ++
                 [Msg.mk Status.inProgress "[1/5] Connected to radio" 1 (buildRadioInfo d)])),
              m.step = 1 := by
            intro m hm
            rcases List.mem_append.1 hm with hm | hm
            · simp at hm; rcases hm with rfl | rfl <;> rfl
            · rcases List.mem_append.1 hm with hm | hm
              · exact wait_for_connection_steps _ 30 m hm
              · simp at hm; subst hm; rfl
          have H := pairwise_blocks2 (k := 1) hA
            (pairwise_of_const_step (k := 2) (l :=
              [Msg.mk Status.inProgress "[2/5] Applying default configuration" 2 (buildRadioInfo d),
               Msg.mk Status.failed "Failed to apply default configuration" 2 (buildRadioInfo d)])
              (by intro m hm; simp at hm; rcases hm with rfl | rfl <;> rfl))
            (by intro m hm; simp at hm; rcases hm with rfl | rfl <;> exact one_le_two)
          simpa [List.append_assoc] using H
    | none =>
        by_cases hcfg : env.applyConfigOk = true
        · rw [if_pos hcfg]
          have hA : ∀ m ∈ ([Msg.mk Status.inProgress "[1/5] Starting refurbishment" 1 workerInfo0,
                Msg.mk Status.inProgress "[1/5] Connecting to radio" 1 workerInfo0] ++
                ((wait_for_connection env.connectOracle 30).1 ++ ([] : List Msg))),
              m.step = 1 := by
            intro m hm
            rcases List.mem_append.1 hm with hm | hm
            · simp at hm; rcases hm with rfl | rfl <;> rfl
            · rcases List.mem_append.1 hm with hm | hm
              · exact wait_for_connection_steps _ 30 m hm
              · simp at hm
          have hB : List.Pairwise stepLE
              ([Msg.mk Status.inProgress "[2/5] Applying default configuration" 2 workerInfo0] ++
               firmwareTrace env false skipSpeed workerInfo0) := by
            refine pairwise_blocks2 (k := 2) ?_ (firmwareTrace_noskip_pairwise env skipSpeed _) ?_
            · intro m hm; simp at hm; subst hm; rfl
            · intro m hm; have := firmwareTrace_noskip_ge env skipSpeed _ m hm; omega
          have hge : ∀ m ∈ ([Msg.mk Status.inProgress "[2/5] Applying default configuration" 2
                workerInfo0] ++ firmwareTrace env false skipSpeed workerInfo0),
              1 ≤ m.step := by
            intro m hm
            rcases List.mem_append.1 hm with hm | hm
            · simp at hm; subst hm; exact one_le_two
            · have := firmwareTrace_noskip_ge env skipSpeed _ m hm; omega
          have H := pairwise_blocks2 (k := 1) hA hB hge
          simpa [List.append_assoc] using H
        · rw [if_neg hcfg]
          have hA : ∀ m ∈ ([Msg.mk Status.inProgress "[1/5] Starting refurbishment" 1 workerInfo0,
                Msg.mk Status.inProgress "[1/5] Connecting to radio" 1 workerInfo0] ++
                ((wait_for_connection env.connectOracle 30).1 ++ ([] : List Msg))),
              m.step = 1 := by
            intro m hm
            rcases List.mem_append.1 hm with hm | hm
            · simp at hm; rcases hm with rfl | rfl <;> rfl
            · rcases List.mem_append.1 hm with hm | hm
              · exact wait_for_connection_steps _ 30 m hm
              · simp at hm
          have H := pairwise_blocks2 (k := 1) hA
            (pairwise_of_const_step (k := 2) (l :=
              [Msg.mk Status.inProgress "[2/5] Applying default configuration" 2 workerInfo0,
               Msg.mk Status.failed "Failed to apply default configuration" 2 workerInfo0])
              (by intro m hm; simp at hm; rcases hm with rfl | rfl <;> rfl))
            (by intro m hm; simp at hm; rcases hm with rfl | rfl <;> exact one_le_two)
          simpa [List.append_assoc] using H
  · rw [if_neg hc]
    apply pairwise_of_const_step (k := 1)
    intro m hm
    rcases List.mem_cons.1 hm with rfl | hm
    · rfl
    rcases List.mem_cons.1 hm with rfl | hm
    · rfl
    rcases List.mem_append.1 hm with hm | hm
    · exact wait_for_connection_steps _ 30 m hm
    · simp at hm; subst hm; rfl

theorem upgradeLoop_none (env : WorkerEnv) (info : Info)
    (h : ∀ i, i < 10 → env.upgradeReconnect i = false) :
    upgradeLoop env info 10 = ([], info, false) := by
  have main : ∀ r, r ≤ 10 → upgradeLoop env info r = ([], info, false) := by
    intro r
    induction r with
    | zero => intro _; rfl
    | succ r ih =>
        intro hr
        have hfalse : env.upgradeReconnect (10 - (r + 1)) = false := h _ (by omega)
        simp only [upgradeLoop, hfalse, Bool.false_eq_true, if_false]
        exact ih (by omega)
  exact main 10 le_rfl

theorem speedTrace_head (env : WorkerEnv) (skipSpeed : Bool) (info : Info) :
    (speedTrace env skipSpeed info).head?.map Msg.step = some 4 := by
  simp only [speedTrace]
  by_cases hs : skipSpeed
  · rw [if_pos hs]; rfl
  · rw [if_neg hs]
    cases hres : (run_speed_tests_with_results env.speedOracle env.radioDataAtSpeed 3 10 60 4).2 with
    | none => rfl
    | some t => rfl

/-- C9: when a firmware upgrade is actually initiated (successful, not
reported skipped) and none of the ten coarse reconnection checks succeeds,
the worker emits the `WARNING` message and proceeds directly to the
SpeedTest phase (next message carries step 4); this branch emits no
terminal `FAILED` with step at most 3 — any later failure comes from the
SpeedTest or Finalize phases. -/
theorem C9_firmware_reconnect_warning_nonfatal (env : WorkerEnv) (skipSpeed : Bool) (info : Info)
    (hs : env.upgradeResult.success = true)
    (hk : env.upgradeResult.skipped = false)
    (hr : ∀ i, i < 10 → env.upgradeReconnect i = false) :
    firmwareTrace env false skipSpeed info =
      [Msg.mk Status.inProgress "[3/5] Firmware management" 3 info,
       Msg.mk Status.inProgress "[3/5] Checking firmware and upgrading if needed" 3 info,
       Msg.mk Status.inProgress "[3/5] Firmware upgrade in progress" 3 info,
       Msg.mk Status.warning "[3/5] Radio did not reconnect after upgrade" 3 info] ++
      speedTrace env skipSpeed info ∧
    (speedTrace env skipSpeed info).head?.map Msg.step = some 4 ∧
    (∀ m ∈ firmwareTrace env false skipSpeed info,
      m.status = Status.failed → 4 ≤ m.step) := by
  have hloop := upgradeLoop_none env info hr
  have htrace : firmwareTrace env false skipSpeed info =
      [Msg.mk Status.inProgress "[3/5] Firmware management" 3 info,
       Msg.mk Status.inProgress "[3/5] Checking firmware and upgrading if needed" 3 info,
       Msg.mk Status.inProgress "[3/5] Firmware upgrade in progress" 3 info,
       Msg.mk Status.warning "[3/5] Radio did not reconnect after upgrade" 3 info] ++
      speedTrace env skipSpeed info := by
    simp only [firmwareTrace, Bool.false_eq_true, if_false, if_pos hs, hk, hloop]
    rfl
  refine ⟨htrace, speedTrace_head env skipSpeed info, ?_⟩
  intro m hm hfail
  rw [htrace] at hm
  rcases List.mem_append.1 hm with hm | hm
  · simp at hm
    rcases hm with rfl | rfl | rfl | rfl <;> cases hfail
  · exact speedTrace_ge env skipSpeed info m hm

theorem wfrLoop_true (oracle : Nat → ReconnCheck) (maxA : Nat) :
    ∀ r, r ≤ maxA → (wfrLoop oracle maxA r).2.1 = true →
      ∃ a bnId d, maxA - r < a ∧ a ≤ maxA ∧ oracle a = ReconnCheck.connectedOk bnId d := by
  intro r
  induction r with
  | zero => intro _ h; cases h
  | succ r ih =>
      intro hr h
      cases ho : oracle (maxA - r) with
      | noData =>
          simp only [wfrLoop, ho] at h
          obtain ⟨a, bnId, d, h1, h2, h3⟩ := ih (by omega) h
          exact ⟨a, bnId, d, by omega, h2, h3⟩
      | notConnected =>
          simp only [wfrLoop, ho] at h
          obtain ⟨a, bnId, d, h1, h2, h3⟩ := ih (by omega) h
          exact ⟨a, bnId, d, by omega, h2, h3⟩
      | connectedNoBn => simp only [wfrLoop, ho] at h; cases h
      | connectedBnFail bn => simp only [wfrLoop, ho] at h; cases h
      | connectedOk bn d =>
          exact ⟨maxA - r, bn, d, by omega, by omega, ho⟩

theorem wfrLoop_noBn (oracle : Nat → ReconnCheck) (maxA r : Nat)
    (h : oracle (maxA - r) = ReconnCheck.connectedNoBn) :
    (wfrLoop oracle maxA (r + 1)).2.1 = false := by
  simp only [wfrLoop, h]

theorem wfrLoop_bnFail (oracle : Nat → ReconnCheck) (maxA r : Nat) (bn : String)
    (h : oracle (maxA - r) = ReconnCheck.connectedBnFail bn) :
    (wfrLoop oracle maxA (r + 1)).2.1 = false := by
  simp only [wfrLoop, h]

/-- C10: after the skip-firmware reboot, `wait_for_reconnection` reports
success only when some check observes connected=true AND a truthy upstream
BN identifier AND a successful BN-info fetch; a first check that reports
connected with a falsy BN id, or whose BN-info fetch fails, makes it return
failure immediately (whatever the later checks would say), and the worker
then ends its trace with the terminal `FAILED` message "Radio did not
reconnect after reboot" — even though the device did reconnect. -/
theorem C10_reconnection_requires_bn_info (env : WorkerEnv) (skipSpeed : Bool) (info : Info)
    (oracle : Nat → ReconnCheck) (bn : String)
    (hreboot : env.rebootOk = true) :
    ((wait_for_reconnection oracle 30).2.1 = true →
      ∃ a bnId d, 1 ≤ a ∧ a ≤ 30 ∧ oracle a = ReconnCheck.connectedOk bnId d) ∧
    (oracle 1 = ReconnCheck.connectedNoBn →
      (wait_for_reconnection oracle 30).2.1 = false) ∧
    (oracle 1 = ReconnCheck.connectedBnFail bn →
      (wait_for_reconnection oracle 30).2.1 = false) ∧
    ((wait_for_reconnection env.reconnOracle 30).2.1 = false →
      (firmwareTrace env true skipSpeed info).getLast? =
        some (Msg.mk Status.failed "Radio did not reconnect after reboot" 3 info)) := by
  refine ⟨?_, ?_, ?_, ?_⟩
  · intro h
    obtain ⟨a, bnId, d, h1, h2, h3⟩ := wfrLoop_true oracle 30 30 le_rfl h
    exact ⟨a, bnId, d, by omega, h2, h3⟩
  · intro h
    exact wfrLoop_noBn oracle 30 29 h
  · intro h
    exact wfrLoop_bnFail oracle 30 29 bn h
  · intro h
    simp only [firmwareTrace, if_pos rfl, if_pos hreboot, h, Bool.false_eq_true, if_false]
    show ((Msg.mk Status.inProgress "[3/5] Firmware management" 3 info ::
        Msg.mk Status.inProgress "[3/5] Firmware upgrade skipped" 3 info ::
        Msg.mk Status.inProgress "[3/5] Rebooting radio" 3 info ::
        (wait_for_reconnection env.reconnOracle 30).1) ++
        [Msg.mk Status.failed "Radio did not reconnect after reboot" 3 info]).getLast? =
      some (Msg.mk Status.failed "Radio did not reconnect after reboot" 3 info)
    exact List.getLast?_concat _

theorem lookup_boardSet (b : Board) (r : String) (e : BoardEntry) :
    List.lookup r (boardSet b r e) = some e := by
  induction b with
  | nil => simp [boardSet, List.lookup]
  | cons p rest ih =>
      obtain ⟨r0, e0⟩ := p
      by_cases h : r0 = r
      · subst h; simp [boardSet, List.lookup]
      · simp only [boardSet, if_neg h, List.lookup]
        have : (r == r0) = false := by
          simp [beq_iff_eq]; exact fun hh => h hh.symm
        simp [this, ih]

theorem verifyEntry_resolves (e : BoardEntry) :
    (verifyEntry e).status ≠ Status.pending ∧ (verifyEntry e).status ≠ Status.inProgress := by
  obtain ⟨st, msg, stp, info⟩ := e
  cases st <;> simp only [verifyEntry] <;> split_ifs <;> simp_all

/-- C1 (amended): after `verify_process_completion` no status-board entry is
left `PENDING` or `IN_PROGRESS` — every such entry is resolved to
`COMPLETED` or `FAILED`.  (The claim as frozen — that every entry ends in
`{COMPLETED, FAILED}` — fails for `WARNING` entries, which reconciliation
leaves untouched; see the counterexample.) -/
theorem C1_reconciliation_eliminates_pending (board : Board) (p : String × BoardEntry)
    (h : p ∈ verify_process_completion board) :
    p.2.status ≠ Status.pending ∧ p.2.status ≠ Status.inProgress := by
  rcases List.mem_map.1 h with ⟨q, hq, rfl⟩
  exact verifyEntry_resolves q.2

/-- C1 witness: the reconciled `warnBoard` entry is neither `PENDING` nor
`IN_PROGRESS`. -/
theorem C1_witness :
    (("SN1", warnEntry) ∈ verify_process_completion warnBoard) ∧
    (warnEntry.status ≠ Status.pending ∧ warnEntry.status ≠ Status.inProgress) :=
  ⟨by decide, C1_reconciliation_eliminates_pending warnBoard ("SN1", warnEntry) (by decide)⟩

/-- C1 counterexample: a worker that crashes right after emitting the
firmware `WARNING` message (the eleventh message of `envWarn`'s run) leaves
its board entry `WARNING`, and `verify_process_completion` keeps it
`WARNING` — so it is false that after reconciliation every entry has status
in `{COMPLETED, FAILED}`. -/
theorem C1_counterexample :
    ((worker_refurbish_radio envWarn false false).take 11).getLast?.map Msg.status
      = some Status.warning ∧
    verify_process_completion warnBoard = [("SN1", warnEntry)] ∧
    ¬ (∀ p ∈ verify_process_completion warnBoard,
        p.2.status = Status.completed ∨ p.2.status = Status.failed) := by
  refine ⟨by decide, by decide, by decide⟩

/-- C2: a device still `PENDING` or `IN_PROGRESS` at reconciliation is
marked `COMPLETED` exactly when its snapshot has a `speed_test` entry and
its recorded step is at least 5 (Finalize); otherwise it is marked `FAILED`
with the message "Process did not complete". -/
theorem C2_reconciliation_criterion (e : BoardEntry)
    (h : e.status = Status.pending ∨ e.status = Status.inProgress) :
    ((verifyEntry e).status = Status.completed ↔
      (hasKey e.radioInfo "speed_test" = true ∧ 5 ≤ e.step)) ∧
    (¬ (hasKey e.radioInfo "speed_test" = true ∧ 5 ≤ e.step) →
      verifyEntry e = ⟨Status.failed, "Process did not complete", e.step, e.radioInfo⟩) := by
  obtain ⟨st, msg, stp, info⟩ := e
  simp only at h ⊢
  by_cases hk : hasKey info "speed_test" = true <;> by_cases hs : 5 ≤ stp
  · have h4 : 4 ≤ stp := by omega
    rcases h with rfl | rfl <;> simp [verifyEntry, hk, hs, h4]
  · rcases h with rfl | rfl <;> simp [verifyEntry, hk, hs]
  · rcases h with rfl | rfl <;> simp [verifyEntry, hk, hs]
  · rcases h with rfl | rfl <;> simp [verifyEntry, hk, hs]

/-- C2 witness: an `IN_PROGRESS` entry at step 5 with a recorded speed test
satisfies the criterion. -/
theorem C2_witness :
    (c2Entry.status = Status.pending ∨ c2Entry.status = Status.inProgress) ∧
    (((verifyEntry c2Entry).status = Status.completed ↔
       (hasKey c2Entry.radioInfo "speed_test" = true ∧ 5 ≤ c2Entry.step)) ∧
     (¬ (hasKey c2Entry.radioInfo "speed_test" = true ∧ 5 ≤ c2Entry.step) →
       verifyEntry c2Entry =
         ⟨Status.failed, "Process did not complete", c2Entry.step, c2Entry.radioInfo⟩)) :=
  ⟨Or.inr rfl, C2_reconciliation_criterion c2Entry (Or.inr rfl)⟩

/-- C3 (amended): a speed-test round counts toward the required successes
only when its status is `COMPLETED` and its downlink throughput is present;
but on an exhausted attempt budget the phase fails only when NO round
counted — `run_speed_tests_with_results` returns `None` exactly when no
attempt inside the budget counted, and with any positive number of counted
rounds (even fewer than the required `numTests`) it succeeds. -/
theorem C3_speed_test_counting (oracle : Nat → SpeedAttempt) (radioData : Option RadioData)
    (n maxA intervalS stepN : Nat) (hn : 0 < n) :
    (∀ t ∈ speedCollect oracle n maxA maxA [],
        t.status = some "COMPLETED" ∧ t.downlinkThroughput.isSome = true) ∧
    ((run_speed_tests_with_results oracle radioData n maxA intervalS stepN).2 = none ↔
      ∀ a, 1 ≤ a → a ≤ maxA → countsAsSuccess (oracle a) = false) := by
  constructor
  · intro t ht
    rcases speedCollect_mem oracle n maxA maxA [] t ht with h | h
    · simp at h
    · exact h
  · rw [run_with_results_snd, speedCollect_head oracle n maxA hn maxA,
        firstCountingRound_none_iff oracle maxA maxA le_rfl]
    constructor
    · intro h a h1 h2; exact h a (by omega) h2
    · intro h a h1 h2; exact h a (by omega) h2

/-- C3 witness: with one counted round among ten attempts, the phase does
not report failure. -/
theorem C3_witness :
    (0 < 3) ∧
    ((∀ t ∈ speedCollect envOneSuccess.speedOracle 3 10 10 [],
        t.status = some "COMPLETED" ∧ t.downlinkThroughput.isSome = true) ∧
     ((run_speed_tests_with_results envOneSuccess.speedOracle envOneSuccess.radioDataAtSpeed
          3 10 60 4).2 = none ↔
       ∀ a, 1 ≤ a → a ≤ 10 → countsAsSuccess (envOneSuccess.speedOracle a) = false)) :=
  ⟨Nat.succ_pos 2,
   C3_speed_test_counting envOneSuccess.speedOracle envOneSuccess.radioDataAtSpeed
     3 10 60 4 (Nat.succ_pos 2)⟩

/-- C3 counterexample: `envOneSuccess` exhausts the ten-attempt budget with
only one counted round (fewer than the required three), yet the phase does
NOT fail: it returns the lone result, the worker emits no `FAILED` message
at all, and the workflow runs through Finalize to `COMPLETED` — refuting
"whenever the attempt budget is exhausted with fewer than N counted
successes, the phase fails". -/
theorem C3_counterexample :
    (speedCollect envOneSuccess.speedOracle 3 10 10 []).length = 1 ∧
    (run_speed_tests_with_results envOneSuccess.speedOracle envOneSuccess.radioDataAtSpeed
        3 10 60 4).2 = some goodResult ∧
    (worker_refurbish_radio envOneSuccess false false).getLast?.map Msg.status
      = some Status.completed ∧
    (∀ m ∈ worker_refurbish_radio envOneSuccess false false,
      ¬ m.status = Status.failed) := by
  refine ⟨by decide, by decide, by decide, by decide⟩

/-- C4 counterexample: in the skip-firmware path the reconnection-wait
messages carry the hard-coded step 1 after the step-3 firmware messages
(`wait_for_reconnection` puts step 1 in every message it emits), so the
step sequence of `envSkipFw`'s worker regresses from 3 back to 1 — the
claimed monotonicity fails. -/
theorem C4_counterexample :
    ¬ List.Pairwise stepLE (worker_refurbish_radio envSkipFw true true) := by
  decide

/-- C5 (amended): the monitor loop does not merge snapshot deltas — each
drained message REPLACES the board entry wholesale, so after draining a
message sequence (none of them terminal before the last) the entry equals
the LAST message's fields; a field supplied only by an earlier message does
not persist. -/
theorem C5_board_holds_last_message (board : Board) (radio : String)
    (msgs : List Msg) (m : Msg)
    (h : ∀ x ∈ msgs, x.status ≠ Status.completed ∧ x.status ≠ Status.failed) :
    List.lookup radio (drainMsgs board radio (msgs ++ [m])) =
      some ⟨m.status, m.message, m.step, m.radioInfo⟩ := by
  induction msgs generalizing board with
  | nil =>
      simp only [List.nil_append, drainMsgs]
      split_ifs <;> exact lookup_boardSet board radio _
  | cons x rest ih =>
      have hx := h x (by simp)
      have hcond : ¬ (x.status = Status.completed ∨ x.status = Status.failed) := by
        rintro (hc | hc)
        · exact hx.1 hc
        · exact hx.2 hc
      simp only [List.cons_append, drainMsgs, if_neg hcond]
      exact ih _ (fun y hy => h y (List.mem_cons_of_mem x hy))

/-- C5 witness: draining the two delta messages leaves exactly the second
message's fields on the board. -/
theorem C5_witness :
    (∀ x ∈ [Msg.mk Status.inProgress "step one" 1 [("firmware", "v1")]],
      x.status ≠ Status.completed ∧ x.status ≠ Status.failed) ∧
    List.lookup "SN1" (drainMsgs (initBoard ["SN1"]) "SN1"
        ([Msg.mk Status.inProgress "step one" 1 [("firmware", "v1")]] ++
         [Msg.mk Status.inProgress "step four" 4 [("speed_test", "50/5 Mbps")]])) =
      some ⟨Status.inProgress, "step four", 4, [("speed_test", "50/5 Mbps")]⟩ :=
  ⟨by decide,
   C5_board_holds_last_message (initBoard ["SN1"]) "SN1"
     [Msg.mk Status.inProgress "step one" 1 [("firmware", "v1")]]
     (Msg.mk Status.inProgress "step four" 4 [("speed_test", "50/5 Mbps")]) (by decide)⟩

/-- C5 counterexample: two messages carrying disjoint deltas — the final
board snapshot is the second delta alone, NOT the union with the earlier
`firmware` field persisting, refuting the claimed merge semantics. -/
theorem C5_counterexample :
    (List.lookup "SN1" (drainMsgs (initBoard ["SN1"]) "SN1" deltaMsgs)).map
        BoardEntry.radioInfo = some [("speed_test", "50/5 Mbps")] ∧
    specMergeDeltas (deltaMsgs.map Msg.radioInfo) =
      [("firmware", "v1"), ("speed_test", "50/5 Mbps")] ∧
    ¬ (List.lookup "SN1" (drainMsgs (initBoard ["SN1"]) "SN1" deltaMsgs)).map
        BoardEntry.radioInfo = some (specMergeDeltas (deltaMsgs.map Msg.radioInfo)) := by
  refine ⟨by decide, by decide, by decide⟩

/-- C6 (amended): the interrupt handler turns every `PENDING` or
`IN_PROGRESS` entry into `FAILED` / "Operation interrupted by user"
(keeping step and snapshot) and leaves every other entry — `COMPLETED`,
but also `FAILED` (old message kept) and `WARNING` — unchanged. -/
theorem C6_interrupt_marks_pending_in_progress_failed (board : Board)
    (r : String) (e : BoardEntry) (h : (r, e) ∈ board) :
    ((e.status = Status.pending ∨ e.status = Status.inProgress) →
      (r, BoardEntry.mk Status.failed "Operation interrupted by user" e.step e.radioInfo)
        ∈ interruptBoard board) ∧
    (¬ (e.status = Status.pending ∨ e.status = Status.inProgress) →
      (r, e) ∈ interruptBoard board) := by
  have hm := List.mem_map_of_mem (fun p : String × BoardEntry => (p.1, interruptEntry p.2)) h
  constructor <;> intro hc
  · have he : interruptEntry e =
        BoardEntry.mk Status.failed "Operation interrupted by user" e.step e.radioInfo := by
      simp [interruptEntry, hc]
    simpa [interruptBoard, he] using hm
  · have he : interruptEntry e = e := by
      simp [interruptEntry, hc]
    simpa [interruptBoard, he] using hm

/-- C6 witness: a `PENDING` entry is failed with the interrupt message. -/
theorem C6_witness :
    (("SN1", BoardEntry.mk Status.pending "" 0 []) ∈ initBoard ["SN1"]) ∧
    ((((BoardEntry.mk Status.pending "" 0 []).status = Status.pending ∨
       (BoardEntry.mk Status.pending "" 0 []).status = Status.inProgress) →
      ("SN1", BoardEntry.mk Status.failed "Operation interrupted by user"
          (BoardEntry.mk Status.pending "" 0 []).step
          (BoardEntry.mk Status.pending "" 0 []).radioInfo)
        ∈ interruptBoard (initBoard ["SN1"])) ∧
     (¬ ((BoardEntry.mk Status.pending "" 0 []).status = Status.pending ∨
         (BoardEntry.mk Status.pending "" 0 []).status = Status.inProgress) →
       ("SN1", BoardEntry.mk Status.pending "" 0 []) ∈ interruptBoard (initBoard ["SN1"]))) :=
  ⟨by decide,
   C6_interrupt_marks_pending_in_progress_failed (initBoard ["SN1"]) "SN1"
     (BoardEntry.mk Status.pending "" 0 []) (by decide)⟩

/-- C6 counterexample: a `WARNING` entry (reachable: the monitor drained
`envWarn`'s trace up to the firmware warning) is NOT `COMPLETED`, yet the
interrupt handler leaves it `WARNING` instead of failing it with
"Operation interrupted by user" — refuting "every device not yet COMPLETED
transitions to FAILED". -/
theorem C6_counterexample :
    (List.lookup "SN1" warnBoard).map BoardEntry.status = some Status.warning ∧
    interruptBoard warnBoard = warnBoard ∧
    ¬ (List.lookup "SN1" (interruptBoard warnBoard)).map BoardEntry.status
        = some Status.failed := by
  refine ⟨by decide, by decide, by decide⟩

/-- C7: `refurbish_radios_parallel` does return the count of `FAILED`
entries of its final board (first conjunct, the call with no stray keyword
arguments) — but `main.py`'s `--refurb --parallel` branch passes
`max_workers=...`, which is not a parameter of the function, so the call
raises `TypeError` (and the branch's `if failure_count > 0` reads a name
never assigned there); the CLI path therefore never exits with a computed
code, for any board, refuting "exit code reflects failure_count > 0". -/
theorem C7_cli_parallel_refurb_crashes (finalBoard : Board) :
    callRefurbishRadiosParallel [] finalBoard = Except.ok (countFailed finalBoard) ∧
    ¬ ("max_workers" ∈ refurbishRadiosParallelParams) ∧
    main_refurb_parallel finalBoard =
      CliOutcome.uncaught
        "TypeError: refurbish_radios_parallel() got an unexpected keyword argument" ∧
    ∀ n, main_refurb_parallel finalBoard ≠ CliOutcome.exitCode n := by
  refine ⟨rfl, by decide, rfl, fun n => ?_⟩
  simp [main_refurb_parallel, callRefurbishRadiosParallel, mainParallelCallKwargs,
    refurbishRadiosParallelParams]

/-- C8 (amended): when the parallel SpeedTest phase succeeds, the figures
retained (and written into the snapshot's `speed_test` field by the worker)
are those of the FIRST counting round, not the most recent; the
non-parallel variant returns the field-wise average over all counted
rounds. -/
theorem C8_retained_figures (oracle : Nat → SpeedAttempt) (radioData : Option RadioData)
    (n maxA intervalS stepN : Nat) (hn : 0 < n) :
    (run_speed_tests_with_results oracle radioData n maxA intervalS stepN).2
      = firstCountingRound oracle maxA maxA ∧
    (speedCollect oracle n maxA maxA [] ≠ [] →
      run_speed_tests oracle n maxA =
        some (calculate_average_speed_test_results (speedCollect oracle n maxA maxA []))) := by
  constructor
  · rw [run_with_results_snd, speedCollect_head oracle n maxA hn maxA]
  · intro h
    simp [run_speed_tests, h]

/-- C8 witness: with three counting rounds the parallel variant returns the
first, and the non-parallel variant the average of the collected rounds. -/
theorem C8_witness :
    (0 < 3) ∧
    ((run_speed_tests_with_results oracleThreeRounds none 3 10 60 4).2
        = firstCountingRound oracleThreeRounds 10 10 ∧
     (speedCollect oracleThreeRounds 3 10 10 [] ≠ [] →
       run_speed_tests oracleThreeRounds 3 10 =
         some (calculate_average_speed_test_results (speedCollect oracleThreeRounds 3 10 10 [])))) :=
  ⟨Nat.succ_pos 2, C8_retained_figures oracleThreeRounds none 3 10 60 4 (Nat.succ_pos 2)⟩

/-- C8 counterexample: three counting rounds — the first carries
`goodResult` (50 Mbps), the most recent carries `goodResultB` (80 Mbps) —
and the parallel variant retains `goodResult`, not the most recent round,
refuting "the figures retained are those of the most recent successful
round". -/
theorem C8_counterexample :
    (run_speed_tests_with_results oracleThreeRounds none 3 10 60 4).2 = some goodResult ∧
    (speedCollect oracleThreeRounds 3 10 10 []).getLast? = some goodResultB ∧
    ¬ goodResult = goodResultB := by
  refine ⟨by decide, by decide, by decide⟩

/-- C9 witness: `envWarn` initiates an upgrade, never observes reconnection
in the ten coarse checks, emits the warning and proceeds to the SpeedTest
phase. -/
theorem C9_witness :
    envWarn.upgradeResult.success = true ∧
    envWarn.upgradeResult.skipped = false ∧
    (∀ i, i < 10 → envWarn.upgradeReconnect i = false) ∧
    (firmwareTrace envWarn false false workerInfo0 =
      [Msg.mk Status.inProgress "[3/5] Firmware management" 3 workerInfo0,
       Msg.mk Status.inProgress "[3/5] Checking firmware and upgrading if needed" 3 workerInfo0,
       Msg.mk Status.inProgress "[3/5] Firmware upgrade in progress" 3 workerInfo0,
       Msg.mk Status.warning "[3/5] Radio did not reconnect after upgrade" 3 workerInfo0] ++
      speedTrace envWarn false workerInfo0 ∧
    (speedTrace envWarn false workerInfo0).head?.map Msg.step = some 4 ∧
    (∀ m ∈ firmwareTrace envWarn false false workerInfo0,
      m.status = Status.failed → 4 ≤ m.step)) :=
  ⟨rfl, rfl, fun _ _ => rfl,
   C9_firmware_reconnect_warning_nonfatal envWarn false workerInfo0 rfl rfl (fun _ _ => rfl)⟩

/-- C10 witness: with every reconnection check reporting connected-but-no-BN,
`wait_for_reconnection` fails and the worker's trace ends with the terminal
"Radio did not reconnect after reboot" message. -/
theorem C10_witness :
    envC10.rebootOk = true ∧
    (((wait_for_reconnection oracleNoBn 30).2.1 = true →
       ∃ a bnId d, 1 ≤ a ∧ a ≤ 30 ∧ oracleNoBn a = ReconnCheck.connectedOk bnId d) ∧
     (oracleNoBn 1 = ReconnCheck.connectedNoBn →
       (wait_for_reconnection oracleNoBn 30).2.1 = false) ∧
     (oracleNoBn 1 = ReconnCheck.connectedBnFail "BN1" →
       (wait_for_reconnection oracleNoBn 30).2.1 = false) ∧
     ((wait_for_reconnection envC10.reconnOracle 30).2.1 = false →
       (firmwareTrace envC10 true false workerInfo0).getLast? =
         some (Msg.mk Status.failed "Radio did not reconnect after reboot" 3 workerInfo0))) :=
  ⟨rfl, C10_reconnection_requires_bn_info envC10 false workerInfo0 oracleNoBn "BN1" rfl⟩

end EzSync
